import Mathlib

/-!
Verification development for the Moodle-Metrics indicator computation engine.

This file gives a shallow embedding, in Lean 4, of the two compute functions
that the checked claims concern:

* `calculate_group1_metrics`   (src/api/indicators/group1_results.py)
* `calculate_group3_metrics_from_grades` (src/api/indicators/group3_behavior.py)

Modelling conventions:

* Python floats are modelled as exact rationals (`ℚ`).  Decimal rounding
  (`round(x, 2)`, which Python performs with round-half-to-even) is modelled
  exactly on rationals by `pyRound2`; binary floating-point representation
  error is idealised away.
* JSON-ish scalar values (the possible contents of `graderaw` / `grademax` /
  `weightraw` fields) are modelled by `JVal`: a number, a string, or null.
  Python's `float(...)` coercion is modelled by `pyFloat`, which fails with
  `"TypeError"` on `None`/null and with `"ValueError"` on a non-numeric
  string (numeric strings of the form `[+-]digits[.digits]` parse; exotic
  forms such as exponents or surrounding whitespace are not modelled — no
  claim depends on them).
* Python exceptions are modelled with `Except String`; the string is the
  exception class name.  Code sites where the source wraps an operation
  in `try/except` swallow the failure exactly as the source does; sites
  with no enclosing handler propagate the error.
* A row of `usergrades` may be `null` (`Student.nullRow`) or a record.  A
  missing `gradeitems` key and an empty `gradeitems` list are identified
  (both are falsy in every guard of the source and both turn into `[]`
  under `.get('gradeitems', [])`).
* `weightformatted` is modelled as a plain string with `""` for an
  absent/null value (the source only tests its truthiness and searches it
  for the substring `"0.00"`).
* The three display statistics `ind_1_3_nota_promedio/_mediana` are modelled
  (`statistics.mean` / `statistics.median` are exact on rationals);
  `ind_1_3_nota_desviacion` (sample standard deviation) needs a real square
  root and is omitted from the result record — no claim concerns it.
* The top-level dict-shape guards (`not grades_data`, non-dict input,
  missing `usergrades` key) are absorbed into the choice of input type:
  the embedded functions take the `usergrades` list directly, and the
  remaining guards (`not user_grades`, length) are kept.
-/

/-- A JSON-ish scalar value as found in gradebook fields. -/
inductive JVal where
  | null : JVal
  | num : ℚ → JVal
  | str : String → JVal
deriving DecidableEq, Repr

/-- Is this value the Python `None` / JSON null? -/
def JVal.isNull : JVal → Bool
  | .null => true
  | _ => false

/-- Digits of a decimal string folded into a natural number. -/
def digitsToNat (ds : List Char) : ℕ :=
  ds.foldl (fun a c => a * 10 + (c.toNat - 48)) 0

/-- Parse a decimal literal `[+-]digits[.digits]` into a rational, as
Python's `float()` does on such strings; `none` for anything else. -/
def parseDecimal (s : String) : Option ℚ :=
  let cs := s.data
  let signed : Bool × List Char :=
    match cs with
    | '-' :: rest => (true, rest)
    | '+' :: rest => (false, rest)
    | _ => (false, cs)
  let body := signed.2
  let ip := body.takeWhile (fun c => c.isDigit)
  let rest := body.dropWhile (fun c => c.isDigit)
  let val? : Option ℚ :=
    match rest with
    | [] => if ip.isEmpty then none else some (digitsToNat ip)
    | '.' :: fp =>
      if (ip.isEmpty && fp.isEmpty) || !(fp.all (fun c => c.isDigit)) then none
      else some ((digitsToNat ip : ℚ) + (digitsToNat fp : ℚ) / 10 ^ fp.length)
    | _ => none
  val?.map fun v => if signed.1 then -v else v

/-- Python `float(x)`: fails with `TypeError` on `None`, with `ValueError`
on a non-numeric string. -/
def pyFloat : JVal → Except String ℚ
  | .null => .error "TypeError"
  | .num q => .ok q
  | .str s =>
    match parseDecimal s with
    | some q => .ok q
    | none => .error "ValueError"

/-- Python `float(d.get(key))` where the key has no default: a missing key
gives `None`, hence `TypeError`. -/
def pyFloatOpt : Option JVal → Except String ℚ
  | none => .error "TypeError"
  | some v => pyFloat v

/-- Does `s` contain `needle` as a prefix? (`List Char` version.) -/
def startsWithChars : List Char → List Char → Bool
  | _, [] => true
  | [], _ :: _ => false
  | a :: as, b :: bs => a == b && startsWithChars as bs

/-- Does `s` contain `needle` as a substring? (Python `needle in s`.) -/
def hasSubChars : List Char → List Char → Bool
  | [], needle => needle.isEmpty
  | c :: rest, needle => startsWithChars (c :: rest) needle || hasSubChars rest needle

/-- Python `'0.00' in wfmt` on the weight-formatted display string. -/
def wfmtHasZeroZero (s : String) : Bool :=
  hasSubChars s.data "0.00".data

/-- One entry of a student's `gradeitems` list.  `grademax` distinguishes a
missing key (`none`) from an explicit null (`some .null`) because the source
reads it both with a default (`.get('grademax', 0)`) and without one. -/
structure GradeItem where
  itemtype : Option String := none
  itemmodule : Option String := none
  grademax : Option JVal := none
  graderaw : JVal := .null
  weightraw : JVal := .null
  weightformatted : String := ""
  feedback : String := ""
deriving DecidableEq, Repr

/-- A row of `usergrades`: either a JSON null or a student record (with a
missing `gradeitems` key identified with an empty list). -/
inductive Student where
  | nullRow : Student
  | mk : List GradeItem → Student
deriving DecidableEq, Repr

/-- `student['gradeitems']` after the source's `not student or not
student.get('gradeitems')` guard: null rows and empty rows give `[]`. -/
def Student.itemsOrNil : Student → List GradeItem
  | .nullRow => []
  | .mk l => l

/-- Unguarded `student.get('gradeitems')`: raises `AttributeError` on a
null row. -/
def Student.itemsOrRaise : Student → Except String (List GradeItem)
  | .nullRow => .error "AttributeError"
  | .mk l => .ok l

/-- `itemtype in ('course', 'category')`. -/
def isAggregate (t : Option String) : Bool :=
  t == some "course" || t == some "category"

/-- Python's binary `min` on numbers. -/
def ratMin (a b : ℚ) : ℚ := if a ≤ b then a else b

/-- Python's `abs` on numbers. -/
def ratAbs (x : ℚ) : ℚ := if x < 0 then -x else x

-- ---------------------------------------------------------------------
-- Business-logic constants of group1_results.py
-- ---------------------------------------------------------------------

def TARGET_SCALE : ℚ := 20
def MIN_VALID_GRADE : ℚ := 1
def PASSING_GRADE : ℚ := 19/2
def DENSITY_ACTIVE : ℚ := 2/5
def DENSITY_COMPLETE : ℚ := 4/5
def MIN_PARTICIPATION_RATE : ℚ := 1/20
def MIN_STUDENTS_REQUIRED : ℕ := 5

-- ---------------------------------------------------------------------
-- STEP 0: scale detection (group1_results.py lines 31-66)
-- ---------------------------------------------------------------------

/-- Inner item loop of the scale scan: find the first `course` item of a
student, read `config_max_grade` from it if still unset (an unguarded
`float`, so it can raise), and fold its `graderaw` into the observed
maximum (that `float` is wrapped in `try/except`, so failures are
swallowed).  The accumulator is `(config_max_grade, global_max_observed)`. -/
def scanScaleStudent (acc : ℚ × ℚ) : List GradeItem → Except String (ℚ × ℚ)
  | [] => .ok acc
  | it :: rest =>
    if it.itemtype == some "course" then
      (if acc.1 = 0 then pyFloat (it.grademax.getD (JVal.num 0)) else .ok acc.1).bind
        fun cfg =>
          let obs :=
            if it.graderaw.isNull then acc.2
            else
              match pyFloat it.graderaw with
              | .ok v => if v > acc.2 then v else acc.2
              | .error _ => acc.2
          .ok (cfg, obs)
    else scanScaleStudent acc rest

/-- STEP 0 scan over all students (rows with no items are skipped). -/
def scanScale (ug : List Student) : Except String (ℚ × ℚ) :=
  ug.foldlM (fun acc s => scanScaleStudent acc s.itemsOrNil) (0, 0)

/-- The normalization decision table (lines 56-66):
returns `(should_normalize, normalize_divisor)`. -/
def scaleDecision (cfg obs : ℚ) : Bool × ℚ :=
  if cfg > 25 then
    if obs > 22 then (true, cfg) else (false, 1)
  else if cfg > 1/1000 ∧ ratAbs (cfg - 20) > 1/10 then (true, cfg)
  else (false, 1)

-- ---------------------------------------------------------------------
-- STEP 1: column metadata, participation counts, whitelist (lines 68-132)
-- ---------------------------------------------------------------------

/-- `max_columns` (lines 71-74).  The loop calls `student.get` without a
null guard, so a null row raises `AttributeError`. -/
def maxColumns (ug : List Student) : Except String ℕ :=
  ug.foldlM
    (fun acc s =>
      (s.itemsOrRaise).bind fun items =>
        .ok (if items.isEmpty then acc else max acc items.length))
    0

/-- Per-column metadata captured from the first student exhibiting the
column (lines 90-96). -/
structure ColMeta where
  type : Option String
  gmax : ℚ
  wraw : Option ℚ
  wfmt : String
deriving DecidableEq, Repr

/-- Build a column's metadata from an item.  The two `float` coercions sit
inside `try/except (ValueError, TypeError, IndexError)`, so a failure
leaves the metadata unset (`none`) and skips the item. -/
def buildMetaFromItem (it : GradeItem) : Option ColMeta :=
  match pyFloat (it.grademax.getD (JVal.num 0)) with
  | .error _ => none
  | .ok g =>
    match it.weightraw with
    | .null => some ⟨it.itemtype, g, none, it.weightformatted⟩
    | w =>
      match pyFloat w with
      | .error _ => none
      | .ok q => some ⟨it.itemtype, g, some q, it.weightformatted⟩

/-- Process one item at one column slot: set metadata if unset (a parse
failure skips the whole item, including its participation count), then
count participation for a non-null `graderaw` (lines 88-100). -/
def colStep (it : GradeItem) (e : Option ColMeta × ℕ) : Option ColMeta × ℕ :=
  match e.1 with
  | some m => (some m, if it.graderaw.isNull then e.2 else e.2 + 1)
  | none =>
    match buildMetaFromItem it with
    | none => (none, e.2)
    | some m => (some m, if it.graderaw.isNull then e.2 else e.2 + 1)

/-- One student's pass over the column-state list.  A slot index beyond the
state is an `IndexError`, which the source catches and skips. -/
def colsPass : List GradeItem → List (Option ColMeta × ℕ) → List (Option ColMeta × ℕ)
  | [], st => st
  | _ :: _, [] => []
  | it :: its, e :: st => colStep it e :: colsPass its st

/-- The metadata/participation pass over all students, also counting
`total_valid_students` (students with a non-empty item list, lines 83-100). -/
def colsFold (acc : List (Option ColMeta × ℕ) × ℕ) : Student → List (Option ColMeta × ℕ) × ℕ
  | .nullRow => acc
  | .mk [] => acc
  | .mk (it :: its) => (colsPass (it :: its) acc.1, acc.2 + 1)

def buildColumns (ug : List Student) (mc : ℕ) : List (Option ColMeta × ℕ) × ℕ :=
  ug.foldl colsFold (List.replicate mc ((none : Option ColMeta), 0), 0)

/-- Layer 1 (lines 102-110): does any non-aggregate column carry an
explicit positive weight (numeric or via the formatted string)? -/
def colHasWeight (m : ColMeta) : Bool :=
  (match m.wraw with
   | some w => decide (w > 1/10000)
   | none => false)
  || (m.wfmt ≠ "" && !(wfmtHasZeroZero m.wfmt))

/-- `has_explicit_weights` over the metadata list. -/
def hasExplicitWeights (ms : List (Option ColMeta)) : Bool :=
  ms.any fun m? =>
    match m? with
    | none => false
    | some m => !(isAggregate m.type) && colHasWeight m

/-- The aggressive weight filter (line 122): a column is invalid under an
explicit-weight regime iff its weight is absent, non-positive, or its
formatted weight contains `"0.00"`. -/
def isInvalidWeight (m : ColMeta) : Bool :=
  match m.wraw with
  | none => true
  | some w => decide (w ≤ 1/10000) || wfmtHasZeroZero m.wfmt

/-- Should column `m` with participation count `cnt` be whitelisted
(lines 112-129)? -/
def keepColumn (hew : Bool) (tvs : ℕ) (m : ColMeta) (cnt : ℕ) : Bool :=
  !(isAggregate m.type) && decide (m.gmax > 1/100) &&
  (if hew then !(isInvalidWeight m)
   else decide ((if 0 < tvs then (cnt : ℚ) / tvs else 0) ≥ MIN_PARTICIPATION_RATE))

/-- Collect whitelisted column indices starting from index `idx`. -/
def whitelistFrom (hew : Bool) (tvs : ℕ) : ℕ → List (Option ColMeta × ℕ) → List ℕ
  | _, [] => []
  | idx, e :: rest =>
    (match e.1 with
     | some m => if keepColumn hew tvs m e.2 then [idx] else []
     | none => []) ++ whitelistFrom hew tvs (idx + 1) rest

/-- `whitelisted_indices` (lines 112-129). -/
def whitelistIndices (st : List (Option ColMeta × ℕ)) (tvs : ℕ) : List ℕ :=
  whitelistFrom (hasExplicitWeights (st.map Prod.fst)) tvs 0 st

/-- STEP 1 of the pipeline packaged: `max_columns`, the column state and
`total_valid_students`. -/
def columnsStep (ug : List Student) : Except String (ℕ × List (Option ColMeta × ℕ) × ℕ) :=
  (maxColumns ug).bind fun mc => .ok (mc, buildColumns ug mc)

/-- The whitelist the engine derives for a gradebook (empty means the
course is a digital desert).  `calculate_group1_metrics` returns `None`
before consulting it when `max_columns = 0`. -/
def group1Whitelist (ug : List Student) : Except String (List ℕ) :=
  (columnsStep ug).bind fun cst => .ok (whitelistIndices cst.2.1 cst.2.2)

-- ---------------------------------------------------------------------
-- STEP 1.5: success-based denominator (lines 134-165)
-- ---------------------------------------------------------------------

/-- Count of whitelisted items the student completed (non-null `graderaw`;
an out-of-range index is an `IndexError` the source catches, lines 145-150). -/
def completedCount (wl : List ℕ) (items : List GradeItem) : ℕ :=
  wl.countP fun idx =>
    match items[idx]? with
    | some it => !it.graderaw.isNull
    | none => false

/-- First `course` item with a non-null `graderaw`, as `(has_final,
raw_final)`.  The `float` here is unguarded (lines 152-156 / 193-199). -/
def finalExtract (items : List GradeItem) : Except String (Bool × ℚ) :=
  match items.find? (fun it => it.itemtype == some "course" && !it.graderaw.isNull) with
  | none => .ok (false, 0)
  | some it => (pyFloat it.graderaw).bind fun q => .ok (true, q)

/-- Normalized final grade used in the denominator scan (line 158, no cap). -/
def normFinalRaw (sn : Bool) (dv raw : ℚ) : ℚ :=
  if sn then raw / dv * TARGET_SCALE else raw

/-- The scan over students for `(max_tasks_by_passing_student,
passers_found)` (lines 139-163). -/
def denominatorScan (ug : List Student) (wl : List ℕ) (sn : Bool) (dv : ℚ) :
    Except String (ℕ × Bool) :=
  ug.foldlM
    (fun acc s =>
      match s with
      | .nullRow => .ok acc
      | .mk [] => .ok acc
      | .mk items =>
        (finalExtract items).bind fun fr =>
          if normFinalRaw sn dv fr.2 ≥ PASSING_GRADE then
            .ok (max acc.1 (completedCount wl items), true)
          else .ok acc)
    (0, false)

/-- `final_denominator` for a non-desert course (line 165). -/
def finalDenominator (ug : List Student) (wl : List ℕ) (sn : Bool) (dv : ℚ) :
    Except String ℚ :=
  (denominatorScan ug wl sn dv).bind fun mp =>
    .ok (if mp.2 = true ∧ 0 < mp.1 then (mp.1 : ℚ) else ((max wl.length 1 : ℕ) : ℚ))

-- ---------------------------------------------------------------------
-- STEP 2: per-student classification and aggregation (lines 167-248)
-- ---------------------------------------------------------------------

/-- The aggregation accumulator of STEP 2. -/
structure Agg where
  totalChecks : ℕ := 0
  totalCapacity : ℚ := 0
  passing : ℕ := 0
  active : ℕ := 0
  finisher : ℕ := 0
  gradesPool : List ℚ := []
  qualified : List ℚ := []
  processed : ℕ := 0
deriving DecidableEq, Repr

/-- The initial (all-zero) accumulator. -/
def Agg.init : Agg := {}

/-- Eligibility check of line 212. -/
def isParticipant (hasFinal : Bool) (raw : ℚ) (completed : ℕ) : Bool :=
  (hasFinal && decide (raw ≥ 1/10)) || decide (0 < completed)

/-- Normalized, capped grade of a processed student (lines 218-219). -/
def normGrade (hasFinal sn : Bool) (dv raw : ℚ) : ℚ :=
  ratMin (if hasFinal && sn then raw / dv * TARGET_SCALE else raw) TARGET_SCALE

/-- Strict finisher test (line 234): completion density alone. -/
def isFinisher (completed : ℕ) (d : ℚ) : Bool :=
  decide ((completed : ℚ) / d ≥ DENSITY_COMPLETE)

/-- The non-trivial branch of the STEP 2 loop body, for a student with a
non-empty item list (lines 192-245). -/
def classifyItems (desert : Bool) (wl : List ℕ) (d : ℚ) (sn : Bool) (dv : ℚ)
    (a : Agg) (items : List GradeItem) : Except String Agg :=
  (finalExtract items).bind fun fr =>
      let completed := if desert then 0 else completedCount wl items
      let a1 := if desert then a else { a with totalChecks := a.totalChecks + completed }
      if isParticipant fr.1 fr.2 completed then
        let ng := normGrade fr.1 sn dv fr.2
        let isActive :=
          if desert then decide (ng ≥ 1/10)
          else decide ((completed : ℚ) / d ≥ DENSITY_ACTIVE ∨ ng ≥ PASSING_GRADE)
        let fin := if desert then false else isFinisher completed d
        .ok { a1 with
          processed := a1.processed + 1
          gradesPool := a1.gradesPool ++ [ng]
          passing := if ng ≥ PASSING_GRADE then a1.passing + 1 else a1.passing
          totalCapacity := if desert then a1.totalCapacity else a1.totalCapacity + d
          active := if isActive then a1.active + 1 else a1.active
          qualified :=
            if isActive ∧ ng ≥ 1/2 then a1.qualified ++ [ng] else a1.qualified
          finisher := if fin then a1.finisher + 1 else a1.finisher }
      else .ok a1

/-- One student's contribution to the aggregation (lines 186-245): null
rows and students without items are skipped. -/
def classifyStudent (desert : Bool) (wl : List ℕ) (d : ℚ) (sn : Bool) (dv : ℚ)
    (a : Agg) : Student → Except String Agg
  | .nullRow => .ok a
  | .mk [] => .ok a
  | .mk (it :: its) => classifyItems desert wl d sn dv a (it :: its)

-- ---------------------------------------------------------------------
-- STEP 3: final KPI compilation (lines 250-309)
-- ---------------------------------------------------------------------

/-- Round-half-to-even to an integer, as Python's `round` does on exact
values. -/
def roundHalfEven (x : ℚ) : ℤ :=
  if x - Rat.floor x < 1/2 then Rat.floor x
  else if 1/2 < x - Rat.floor x then Rat.floor x + 1
  else if Rat.floor x % 2 = 0 then Rat.floor x
  else Rat.floor x + 1

/-- Python `round(x, 2)` on an exact rational. -/
def pyRound2 (x : ℚ) : ℚ :=
  (roundHalfEven (x * 100) : ℚ) / 100

/-- Insert into an ascending list. -/
def insertSorted (x : ℚ) : List ℚ → List ℚ
  | [] => [x]
  | y :: ys => if x ≤ y then x :: y :: ys else y :: insertSorted x ys

/-- Ascending sort (for the median). -/
def sortAsc (l : List ℚ) : List ℚ := l.foldr insertSorted []

/-- `statistics.mean` on an exact rational sample. -/
def listMean (l : List ℚ) : ℚ := l.sum / l.length

/-- `statistics.median` on an exact rational sample. -/
def listMedian (l : List ℚ) : ℚ :=
  let s := sortAsc l
  let n := s.length
  if n % 2 = 1 then s.getD (n / 2) 0
  else (s.getD (n / 2 - 1) 0 + s.getD (n / 2) 0) / 2

/-- The output record of `calculate_group1_metrics` (lines 275-309). -/
structure KPIResult where
  n_estudiantes_procesados : ℕ
  n_estudiantes_totales : ℕ
  ind_1_1_cumplimiento : Option ℚ
  ind_1_2_aprobacion : ℚ
  ind_1_3_nota_promedio : ℚ
  ind_1_3_nota_mediana : ℚ
  ind_1_4_participacion : ℚ
  ind_1_5_finalizacion : Option ℚ
  ind_1_1_num : ℕ
  ind_1_1_den : ℚ
  ind_1_2_num : ℕ
  ind_1_2_den : ℕ
  ind_1_3_num : ℚ
  ind_1_3_den : ℕ
  ind_1_4_num : ℕ
  ind_1_4_den : ℕ
  ind_1_5_num : ℕ
  ind_1_5_den : ℕ
deriving DecidableEq, Repr

/-- STEP 3: build the result record from the aggregation state
(lines 250-309). -/
def mkResult (desert : Bool) (tvs : ℕ) (agg : Agg) : KPIResult :=
  let avgVal := if agg.qualified.isEmpty then 0 else listMean agg.qualified
  let medVal := if agg.qualified.isEmpty then 0 else listMedian agg.qualified
  let approval := (agg.passing : ℚ) / (agg.processed : ℚ) * 100
  let activity := if 0 < tvs then (agg.active : ℚ) / (tvs : ℚ) * 100 else 0
  let compliance : Option ℚ :=
    if desert then none
    else
      some (ratMin
        (pyRound2 (if 0 < agg.totalCapacity then
          (agg.totalChecks : ℚ) / agg.totalCapacity * 100 else 0))
        100)
  let completion : Option ℚ :=
    if desert then none
    else some (pyRound2 ((agg.finisher : ℚ) / (agg.processed : ℚ) * 100))
  { n_estudiantes_procesados := agg.processed
    n_estudiantes_totales := tvs
    ind_1_1_cumplimiento := compliance
    ind_1_2_aprobacion := pyRound2 approval
    ind_1_3_nota_promedio := pyRound2 avgVal
    ind_1_3_nota_mediana := pyRound2 medVal
    ind_1_4_participacion := pyRound2 activity
    ind_1_5_finalizacion := completion
    ind_1_1_num := agg.totalChecks
    ind_1_1_den := if desert then 0 else agg.totalCapacity
    ind_1_2_num := agg.passing
    ind_1_2_den := agg.processed
    ind_1_3_num := pyRound2 agg.qualified.sum
    ind_1_3_den := agg.qualified.length
    ind_1_4_num := agg.active
    ind_1_4_den := tvs
    ind_1_5_num := agg.finisher
    ind_1_5_den := agg.processed }

/-- `calculate_group1_metrics` (group1_results.py lines 17-309), over the
`usergrades` list.  `.ok none` is Python's `return None`; `.error e` is an
uncaught exception `e`. -/
def calculate_group1_metrics (ug : List Student) : Except String (Option KPIResult) :=
  if ug.length < MIN_STUDENTS_REQUIRED then .ok none
  else
    (scanScale ug).bind fun co =>
      let sd := scaleDecision co.1 co.2
      (columnsStep ug).bind fun cst =>
        if cst.1 = 0 then .ok none
        else
          let wl := whitelistIndices cst.2.1 cst.2.2
          let desert := wl.isEmpty
          (if desert then Except.ok (1 : ℚ)
           else finalDenominator ug wl sd.1 sd.2).bind fun d =>
            (ug.foldlM (classifyStudent desert wl d sd.1 sd.2) Agg.init).bind fun agg =>
              if agg.processed < MIN_STUDENTS_REQUIRED then .ok none
              else .ok (some (mkResult desert cst.2.2 agg))

-- ---------------------------------------------------------------------
-- group3_behavior.py: calculate_group3_metrics_from_grades
-- ---------------------------------------------------------------------

/-- Excellence tally for one student (lines 26-41): find the first `course`
item; both `float` coercions sit inside `try/except (ValueError,
TypeError)`, so a failure skips the student.  Accumulator is
`(total_students_with_final_grade, total_excellence)`. -/
def excellenceStudent (acc : ℕ × ℕ) (items : List GradeItem) : ℕ × ℕ :=
  match items.find? (fun it => it.itemtype == some "course") with
  | none => acc
  | some it =>
    match pyFloat it.graderaw, pyFloatOpt it.grademax with
    | .ok fg, .ok gm =>
      (acc.1 + 1, if 0 < gm ∧ fg / gm ≥ 9/10 then acc.2 + 1 else acc.2)
    | _, _ => acc

/-- Excellence tally over all students (lines 19-41). -/
def excellenceTally (ug : List Student) : ℕ × ℕ :=
  ug.foldl
    (fun acc s =>
      match s with
      | .nullRow => acc
      | .mk [] => acc
      | .mk items => excellenceStudent acc items)
    (0, 0)

/-- `max_columns` of the group-3 whitelist replication (line 52):
`max(...)` over a generator.  A null row raises `AttributeError` inside the
generator; if no student has items the sequence is empty, and Python's
`max()` raises `ValueError`. -/
def g3MaxColumns (ug : List Student) : Except String ℕ :=
  (ug.foldlM
    (fun (acc : List ℕ) (s : Student) =>
      (s.itemsOrRaise).bind fun items =>
        .ok (if items.isEmpty then acc else acc ++ [items.length]))
    []).bind fun lens =>
      match lens with
      | [] => .error "ValueError"
      | l :: ls => .ok (ls.foldl max l)

/-- Simplified column metadata of group 3 (lines 58-63): `weightraw`
defaults to `0.0` instead of `None`, and there is no formatted-weight
fallback. -/
structure G3Meta where
  type : Option String
  gmax : ℚ
  wraw : ℚ
deriving DecidableEq, Repr

/-- Build a group-3 column's metadata.  Unlike group 1 there is no
`try/except` here: a `float` failure propagates out of the function. -/
def g3BuildItem (it : GradeItem) : Except String G3Meta :=
  (pyFloat (it.grademax.getD (JVal.num 0))).bind fun g =>
    (match it.weightraw with
     | .null => Except.ok (0 : ℚ)
     | w => pyFloat w).bind fun w =>
      .ok ⟨it.itemtype, g, w⟩

/-- One item at one column slot of the group-3 metadata pass. -/
def g3ColStep (it : GradeItem) (e : Option G3Meta × ℕ) : Except String (Option G3Meta × ℕ) :=
  match e.1 with
  | some m => .ok (some m, if it.graderaw.isNull then e.2 else e.2 + 1)
  | none =>
    (g3BuildItem it).bind fun m =>
      .ok (some m, if it.graderaw.isNull then e.2 else e.2 + 1)

/-- One student's pass over the group-3 column state.  An index beyond the
state would be an uncaught `IndexError` (unreachable for `max_columns`
computed above, but modelled faithfully). -/
def g3ColsPass : List GradeItem → List (Option G3Meta × ℕ) → Except String (List (Option G3Meta × ℕ))
  | [], st => .ok st
  | _ :: _, [] => .error "IndexError"
  | it :: its, e :: st =>
    (g3ColStep it e).bind fun e2 =>
      (g3ColsPass its st).bind fun st2 => .ok (e2 :: st2)

/-- The group-3 metadata/participation pass (lines 56-65).  Note: no null
guard on the student (`student.get(...)` raises on a null row) and no
`try/except` around the `float`s. -/
def g3BuildColumns (ug : List Student) (mc : ℕ) : Except String (List (Option G3Meta × ℕ)) :=
  ug.foldlM
    (fun st s => (s.itemsOrRaise).bind fun items => g3ColsPass items st)
    (List.replicate mc ((none : Option G3Meta), 0))

/-- Group-3 `has_explicit_weights` (line 67): any non-aggregate column with
`wraw > 0.0001`. -/
def g3HasExplicitWeights (ms : List (Option G3Meta)) : Bool :=
  ms.any fun m? =>
    match m? with
    | none => false
    | some m => !(isAggregate m.type) && decide (m.wraw > 1/10000)

/-- Keep a group-3 column (lines 70-80)?  The participation denominator is
`len(user_grades)` — all rows, not just valid students. -/
def g3KeepColumn (hew : Bool) (nUG : ℕ) (m : G3Meta) (cnt : ℕ) : Bool :=
  !(isAggregate m.type) && decide (m.gmax > 1/100) &&
  (if hew then decide (m.wraw > 1/10000)
   else decide ((if 0 < nUG then (cnt : ℚ) / nUG else 0) ≥ MIN_PARTICIPATION_RATE))

/-- Collect group-3 whitelisted indices from `idx` on. -/
def g3WhitelistFrom (hew : Bool) (nUG : ℕ) : ℕ → List (Option G3Meta × ℕ) → List ℕ
  | _, [] => []
  | idx, e :: rest =>
    (match e.1 with
     | some m => if g3KeepColumn hew nUG m e.2 then [idx] else []
     | none => []) ++ g3WhitelistFrom hew nUG (idx + 1) rest

/-- Group-3 `whitelisted_indices`. -/
def g3WhitelistIndices (st : List (Option G3Meta × ℕ)) (nUG : ℕ) : List ℕ :=
  g3WhitelistFrom (g3HasExplicitWeights (st.map Prod.fst)) nUG 0 st

/-- The whole group-3 whitelist replication (lines 51-80). -/
def g3Whitelist (ug : List Student) : Except String (List ℕ) :=
  (g3MaxColumns ug).bind fun mc =>
    (g3BuildColumns ug mc).bind fun st =>
      .ok (g3WhitelistIndices st ug.length)

/-- Feedback tally of one student over the whitelisted columns
(lines 88-96): accumulator is `(total_graded_items_for_feedback,
total_feedbacks)`; an out-of-range index is caught and skipped. -/
def feedbackCount (items : List GradeItem) (acc : ℕ × ℕ) (wl : List ℕ) : ℕ × ℕ :=
  wl.foldl
    (fun acc idx =>
      match items[idx]? with
      | none => acc
      | some it =>
        if it.graderaw.isNull then acc
        else (acc.1 + 1, if it.feedback ≠ "" then acc.2 + 1 else acc.2))
    acc

/-- One student of the feedback loop (null and empty rows are guarded
here). -/
def feedbackFold (wl : List ℕ) (acc : ℕ × ℕ) : Student → ℕ × ℕ
  | .nullRow => acc
  | .mk [] => acc
  | .mk (it :: its) => feedbackCount (it :: its) acc wl

/-- Feedback tally over all students (lines 86-96). -/
def g3FeedbackTally (ug : List Student) (wl : List ℕ) : ℕ × ℕ :=
  ug.foldl (feedbackFold wl) (0, 0)

/-- The output record of `calculate_group3_metrics_from_grades`
(lines 103-112). -/
structure G3Result where
  ind_3_1_excelencia : ℚ
  ind_3_2_feedback : ℚ
  ind_3_1_num : ℕ
  ind_3_1_den : ℕ
  ind_3_2_num : ℕ
  ind_3_2_den : ℕ
deriving DecidableEq, Repr

/-- `calculate_group3_metrics_from_grades` (group3_behavior.py lines
5-112) over the `usergrades` list. -/
def calculate_group3_metrics_from_grades (ug : List Student) :
    Except String (Option G3Result) :=
  if ug.isEmpty then .ok none
  else
    let te := excellenceTally ug
    let i31 := if 0 < te.1 then pyRound2 ((te.2 : ℚ) / (te.1 : ℚ) * 100) else 0
    (g3Whitelist ug).bind fun wl =>
      let fg := g3FeedbackTally ug wl
      let i32 := if 0 < fg.1 then pyRound2 ((fg.2 : ℚ) / (fg.1 : ℚ) * 100) else 0
      .ok (some ⟨i31, i32, te.2, te.1, fg.2, fg.1⟩)

-- ---------------------------------------------------------------------
-- Declarative counting functions used to state the feedback claims
-- ---------------------------------------------------------------------

/-- Is the item at column `idx` graded (present with non-null `graderaw`)? -/
def gradedAt (items : List GradeItem) (idx : ℕ) : Bool :=
  match items[idx]? with
  | some it => !it.graderaw.isNull
  | none => false

/-- Is the item at column `idx` graded with non-empty feedback text? -/
def fbAt (items : List GradeItem) (idx : ℕ) : Bool :=
  match items[idx]? with
  | some it => !it.graderaw.isNull && decide (it.feedback ≠ "")
  | none => false

/-- Number of graded items lying in the given columns, over all students. -/
def gradedItemsInCols (wl : List ℕ) (ug : List Student) : ℕ :=
  (ug.map fun s => wl.countP (gradedAt s.itemsOrNil)).sum

/-- Number of graded items with non-empty feedback lying in the given
columns, over all students. -/
def fbItemsInCols (wl : List ℕ) (ug : List Student) : ℕ :=
  (ug.map fun s => wl.countP (fbAt s.itemsOrNil)).sum

/-- Modelled from the spec (§4.7): the claimed feedback indicator — the
share of graded non-aggregate items carrying non-empty feedback text,
over the raw gradebook with no whitelist filtering. -/
def specFeedbackRatio (ug : List Student) : ℚ :=
  let graded := (ug.map fun s =>
    (s.itemsOrNil.filter fun it =>
      !(isAggregate it.itemtype) && !it.graderaw.isNull).length).sum
  let fb := (ug.map fun s =>
    (s.itemsOrNil.filter fun it =>
      !(isAggregate it.itemtype) && !it.graderaw.isNull &&
        decide (it.feedback ≠ "")).length).sum
  if 0 < graded then (fb : ℚ) / (graded : ℚ) * 100 else 0

/-- Grade-only participant/approval scan: the per-student update of the
STEP 2 loop specialised to digital-desert mode, reading nothing but the
student's final `course` grade.  Accumulator is `(passing, processed)`. -/
def desertStep (sn : Bool) (dv : ℚ) (acc : ℕ × ℕ) : Student → Except String (ℕ × ℕ)
  | .nullRow => .ok acc
  | .mk [] => .ok acc
  | .mk (it :: its) =>
    (finalExtract (it :: its)).bind fun fr =>
      if isParticipant fr.1 fr.2 0 then
        .ok (if normGrade fr.1 sn dv fr.2 ≥ PASSING_GRADE then acc.1 + 1 else acc.1,
             acc.2 + 1)
      else .ok acc

/-- Passing/processed counts computed from the students' final course
grades alone. -/
def desertApproval (sn : Bool) (dv : ℚ) (ug : List Student) : Except String (ℕ × ℕ) :=
  ug.foldlM (desertStep sn dv) (0, 0)

-- ---------------------------------------------------------------------
-- Concrete gradebooks used by the claims
-- ---------------------------------------------------------------------

/-- Equality of modelled Python outcomes is decidable. -/
instance {ε α : Type} [DecidableEq ε] [DecidableEq α] : DecidableEq (Except ε α) := fun x y =>
  match x, y with
  | .ok a, .ok b => decidable_of_iff (a = b) (by simp)
  | .error a, .error b => decidable_of_iff (a = b) (by simp)
  | .ok _, .error _ => .isFalse (by simp)
  | .error _, .ok _ => .isFalse (by simp)

/-- A `course`-type aggregate item with the given ceiling and raw grade. -/
def courseItem (gmax : ℚ) (raw : JVal) : GradeItem :=
  { itemtype := some "course", grademax := some (JVal.num gmax), graderaw := raw }

/-- An assignment column of the end-to-end example: `grademax = 10`,
`weightraw = 0.5`. -/
def exAssign (raw : JVal) : GradeItem :=
  { itemtype := some "mod", itemmodule := some "assign",
    grademax := some (JVal.num 10), graderaw := raw,
    weightraw := JVal.num (1/2) }

/-- The spec's end-to-end example (§8 item 7): six students, one `course`
item with `grademax = 100` and raw grades 95/85/40/92/0/78, plus two
whitelisted assignment columns; completion counts 2/2/2/2/0/2. -/
def ex9 : List Student :=
  [ Student.mk [courseItem 100 (JVal.num 95), exAssign (JVal.num 9), exAssign (JVal.num 8)]
  , Student.mk [courseItem 100 (JVal.num 85), exAssign (JVal.num 8), exAssign (JVal.num 7)]
  , Student.mk [courseItem 100 (JVal.num 40), exAssign (JVal.num 4), exAssign (JVal.num 5)]
  , Student.mk [courseItem 100 (JVal.num 92), exAssign (JVal.num 9), exAssign (JVal.num 9)]
  , Student.mk [courseItem 100 (JVal.num 0), exAssign JVal.null, exAssign JVal.null]
  , Student.mk [courseItem 100 (JVal.num 78), exAssign (JVal.num 7), exAssign (JVal.num 8)] ]

/-- Four students, each with a passing final grade on the 0-20 scale. -/
def ex4 : List Student :=
  [ Student.mk [courseItem 20 (JVal.num 15)]
  , Student.mk [courseItem 20 (JVal.num 12)]
  , Student.mk [courseItem 20 (JVal.num 18)]
  , Student.mk [courseItem 20 (JVal.num 10)] ]

/-- A digital desert that passes the population gate: five students whose
only gradebook column is the `course` aggregate. -/
def exDesert : List Student :=
  [ Student.mk [courseItem 20 (JVal.num 15)]
  , Student.mk [courseItem 20 (JVal.num 10)]
  , Student.mk [courseItem 20 (JVal.num 8)]
  , Student.mk [courseItem 20 (JVal.num 19)]
  , Student.mk [courseItem 20 (JVal.num 12)] ]

/-- A one-student gradebook whose configured course ceiling is 100 while
the observed maximum is 20: the scale-protection case. -/
def exScaleProt : List Student :=
  [ Student.mk [courseItem 100 (JVal.num 20)] ]

/-- Five students whose `course` item carries a non-numeric `grademax`:
the unguarded `float` at group1_results.py line 44 raises `ValueError`. -/
def exBadGmax : List Student :=
  List.replicate 5
    (Student.mk [{ itemtype := some "course",
                   grademax := some (JVal.str "N/A"),
                   graderaw := JVal.num 10 }])

/-- One student whose assignment column carries a non-numeric `grademax`:
the unguarded `float` at group3_behavior.py line 61 raises `ValueError`. -/
def exBadGmax3 : List Student :=
  [ Student.mk [{ itemtype := some "mod",
                  grademax := some (JVal.str "N/A"),
                  graderaw := JVal.num 5 }] ]

/-- Feedback counterexample input: one student, two graded non-aggregate
columns; the zero-weight column is the only one carrying feedback, and the
explicit positive weight on the first column makes the whitelist drop the
second. -/
def exFeedback : List Student :=
  [ Student.mk
      [ { itemtype := some "mod", grademax := some (JVal.num 10),
          graderaw := JVal.num 5, weightraw := JVal.num 1, feedback := "" }
      , { itemtype := some "mod", grademax := some (JVal.num 10),
          graderaw := JVal.num 5, weightraw := JVal.num 0, feedback := "well done" } ] ]

-- ---------------------------------------------------------------------
-- Evaluated results on the concrete gradebooks (shared helper lemmas)
-- ---------------------------------------------------------------------

/-- The record `calculate_group1_metrics` produces on `ex9`. -/
def ex9Result : KPIResult :=
  { n_estudiantes_procesados := 5
    n_estudiantes_totales := 6
    ind_1_1_cumplimiento := some 100
    ind_1_2_aprobacion := 80
    ind_1_3_nota_promedio := 78/5
    ind_1_3_nota_mediana := 17
    ind_1_4_participacion := 8333/100
    ind_1_5_finalizacion := some 100
    ind_1_1_num := 10
    ind_1_1_den := 10
    ind_1_2_num := 4
    ind_1_2_den := 5
    ind_1_3_num := 78
    ind_1_3_den := 5
    ind_1_4_num := 5
    ind_1_4_den := 6
    ind_1_5_num := 5
    ind_1_5_den := 5 }

/-- The record `calculate_group1_metrics` produces on `exDesert`. -/
def exDesertResult : KPIResult :=
  { n_estudiantes_procesados := 5
    n_estudiantes_totales := 5
    ind_1_1_cumplimiento := none
    ind_1_2_aprobacion := 80
    ind_1_3_nota_promedio := 64/5
    ind_1_3_nota_mediana := 12
    ind_1_4_participacion := 100
    ind_1_5_finalizacion := none
    ind_1_1_num := 0
    ind_1_1_den := 0
    ind_1_2_num := 4
    ind_1_2_den := 5
    ind_1_3_num := 64
    ind_1_3_den := 5
    ind_1_4_num := 5
    ind_1_4_den := 5
    ind_1_5_num := 0
    ind_1_5_den := 5 }

/-- An item of the kind the digital-desert claim hypothesises: an
aggregate (`course`/`category`) row, or a column whose `grademax` is
absent or 0. -/
def desertLikeItem (it : GradeItem) : Prop :=
  isAggregate it.itemtype = true ∨ it.grademax = none ∨ it.grademax = some (JVal.num 0)

instance (it : GradeItem) : Decidable (desertLikeItem it) := by
  unfold desertLikeItem; infer_instance

/-- Invariant on a column slot: any built metadata is aggregate-typed or
has a zero ceiling. -/
def desertLikeEntry (e : Option ColMeta × ℕ) : Prop :=
  ∀ m, e.1 = some m → isAggregate m.type = true ∨ m.gmax = 0

/-- The record `calculate_group3_metrics_from_grades` produces on
`exFeedback`. -/
def exFeedbackResult : G3Result :=
  { ind_3_1_excelencia := 0
    ind_3_2_feedback := 0
    ind_3_1_num := 0
    ind_3_1_den := 0
    ind_3_2_num := 0
    ind_3_2_den := 1 }

theorem ex9_run : calculate_group1_metrics ex9 = .ok (some ex9Result) := by
  with_unfolding_all rfl

theorem exDesert_run : calculate_group1_metrics exDesert = .ok (some exDesertResult) := by
  with_unfolding_all rfl

theorem exDesert_whitelist : group1Whitelist exDesert = .ok [] := by
  with_unfolding_all rfl

-- ---------------------------------------------------------------------
-- Inversion of a successful group-1 run
-- ---------------------------------------------------------------------

/-- Any produced result record comes from a full pipeline run: a scale
scan, a column pass with `max_columns ≠ 0`, a denominator, an aggregation
pass whose participant count clears the population gate, and STEP 3. -/
theorem calcG1_inversion {ug : List Student} {r : KPIResult}
    (h : calculate_group1_metrics ug = .ok (some r)) :
    ∃ cfg obs mc st tvs d agg,
      scanScale ug = .ok (cfg, obs) ∧
      columnsStep ug = .ok (mc, st, tvs) ∧
      mc ≠ 0 ∧
      (if (whitelistIndices st tvs).isEmpty then Except.ok (1 : ℚ)
       else finalDenominator ug (whitelistIndices st tvs)
              (scaleDecision cfg obs).1 (scaleDecision cfg obs).2) = .ok d ∧
      ug.foldlM
        (classifyStudent (whitelistIndices st tvs).isEmpty
          (whitelistIndices st tvs) d
          (scaleDecision cfg obs).1 (scaleDecision cfg obs).2) Agg.init = .ok agg ∧
      MIN_STUDENTS_REQUIRED ≤ agg.processed ∧
      r = mkResult (whitelistIndices st tvs).isEmpty tvs agg := by
  unfold calculate_group1_metrics at h
  split at h
  · exact absurd h (by simp)
  · cases hs : scanScale ug with
    | error e => rw [hs] at h; exact absurd h (by simp [Except.bind])
    | ok co =>
      rw [hs] at h
      simp only [Except.bind] at h
      cases hc : columnsStep ug with
      | error e => rw [hc] at h; exact absurd h (by simp [Except.bind])
      | ok cst =>
        rw [hc] at h
        simp only [Except.bind] at h
        split at h
        · exact absurd h (by simp)
        · cases hd : (if (whitelistIndices cst.2.1 cst.2.2).isEmpty then Except.ok (1 : ℚ)
              else finalDenominator ug (whitelistIndices cst.2.1 cst.2.2)
                (scaleDecision co.1 co.2).1 (scaleDecision co.1 co.2).2) with
          | error e => rw [hd] at h; exact absurd h (by simp [Except.bind])
          | ok d =>
            rw [hd] at h
            simp only [Except.bind] at h
            cases ha : ug.foldlM
                (classifyStudent (whitelistIndices cst.2.1 cst.2.2).isEmpty
                  (whitelistIndices cst.2.1 cst.2.2) d
                  (scaleDecision co.1 co.2).1 (scaleDecision co.1 co.2).2) Agg.init with
            | error e => rw [ha] at h; exact absurd h (by simp [Except.bind])
            | ok agg =>
              rw [ha] at h
              simp only [Except.bind] at h
              split at h
              · exact absurd h (by simp)
              · rename_i hmc hgate
                refine ⟨co.1, co.2, cst.1, cst.2.1, cst.2.2, d, agg, ?_, ?_, hmc, ?_, ?_, ?_, ?_⟩
                · rfl
                · rfl
                · exact hd
                · exact ha
                · omega
                · have := h
                  simp only [Except.ok.injEq, Option.some.injEq] at this
                  exact this.symm

-- ---------------------------------------------------------------------
-- Arithmetic helper lemmas
-- ---------------------------------------------------------------------

theorem ratMin_le_right (a b : ℚ) : ratMin a b ≤ b := by
  unfold ratMin; split
  · assumption
  · exact le_refl b

theorem ratMin_nonneg {a b : ℚ} (ha : 0 ≤ a) (hb : 0 ≤ b) : 0 ≤ ratMin a b := by
  unfold ratMin; split <;> assumption

theorem roundHalfEven_nonneg {x : ℚ} (hx : 0 ≤ x) : 0 ≤ roundHalfEven x := by
  have hf : 0 ≤ Rat.floor x := by
    rw [Rat.le_floor]
    exact_mod_cast hx
  unfold roundHalfEven
  split
  · exact hf
  · split
    · omega
    · split <;> omega

theorem pyRound2_nonneg {x : ℚ} (hx : 0 ≤ x) : 0 ≤ pyRound2 x := by
  unfold pyRound2
  apply div_nonneg _ (by norm_num)
  exact_mod_cast roundHalfEven_nonneg (by positivity)

/-- The compliance field of a compiled result: `None` in a desert, and a
value in `[0, 100]` otherwise. -/
theorem mkResult_compliance_bounds (desert : Bool) (tvs : ℕ) (agg : Agg) :
    (mkResult desert tvs agg).ind_1_1_cumplimiento = none ∨
    ∃ x, (mkResult desert tvs agg).ind_1_1_cumplimiento = some x ∧ 0 ≤ x ∧ x ≤ 100 := by
  cases desert with
  | true => left; simp [mkResult]
  | false =>
    right
    refine ⟨ratMin (pyRound2 (if 0 < agg.totalCapacity then
        (agg.totalChecks : ℚ) / agg.totalCapacity * 100 else 0)) 100,
      by simp [mkResult], ?_, ratMin_le_right _ _⟩
    apply ratMin_nonneg _ (by norm_num)
    apply pyRound2_nonneg
    split
    · apply mul_nonneg _ (by norm_num)
      apply div_nonneg (by positivity)
      linarith
    · exact le_refl 0

-- ---------------------------------------------------------------------
-- Claim theorems: C3, C5, C6, C7, C8
-- ---------------------------------------------------------------------

/-- C3: every input with fewer than 5 eligible participants yields no
result — equivalently, any produced result counts at least 5 processed
students — and in particular the four-student gradebook `ex4`, all of whose
students carry a passing final grade, yields `None`. -/
theorem claim_population_gate :
    (∀ ug r, calculate_group1_metrics ug = .ok (some r) →
      MIN_STUDENTS_REQUIRED ≤ r.n_estudiantes_procesados) ∧
    calculate_group1_metrics ex4 = .ok none := by
  constructor
  · intro ug r h
    obtain ⟨cfg, obs, mc, st, tvs, d, agg, _, _, _, _, _, hgate, hr⟩ := calcG1_inversion h
    rw [hr]
    simpa [mkResult] using hgate
  · with_unfolding_all rfl

theorem claim_population_gate_witness :
    ∃ r, calculate_group1_metrics ex9 = .ok (some r) ∧
      MIN_STUDENTS_REQUIRED ≤ r.n_estudiantes_procesados :=
  ⟨ex9Result, ex9_run, claim_population_gate.1 ex9 ex9Result ex9_run⟩

/-- C5: for a non-empty whitelist the resolved `final_denominator` is at
least 1 — the per-student density division is always defined. -/
theorem claim_denominator_pos :
    ∀ ug wl sn dv d, wl ≠ [] →
      finalDenominator ug wl sn dv = .ok d → 1 ≤ d := by
  intro ug wl sn dv d _ h
  unfold finalDenominator at h
  cases hscan : denominatorScan ug wl sn dv with
  | error e => rw [hscan] at h; exact absurd h (by simp [Except.bind])
  | ok mp =>
    rw [hscan] at h
    simp only [Except.bind, Except.ok.injEq] at h
    subst h
    split
    · rename_i hcond
      exact_mod_cast Nat.one_le_iff_ne_zero.mpr (Nat.pos_iff_ne_zero.mp hcond.2)
    · exact_mod_cast le_max_right wl.length 1

theorem claim_denominator_pos_witness :
    finalDenominator ex9 [1, 2] true 100 = .ok 2 ∧ (1 : ℚ) ≤ 2 :=
  ⟨by with_unfolding_all rfl,
   claim_denominator_pos ex9 [1, 2] true 100 2 (by simp)
     (by with_unfolding_all rfl)⟩

/-- C6: whenever `calculate_group1_metrics` produces a result, its
compliance indicator is `None` (digital desert) or lies in `[0, 100]`. -/
theorem claim_compliance_range :
    ∀ ug r, calculate_group1_metrics ug = .ok (some r) →
      r.ind_1_1_cumplimiento = none ∨
      ∃ x, r.ind_1_1_cumplimiento = some x ∧ 0 ≤ x ∧ x ≤ 100 := by
  intro ug r h
  obtain ⟨cfg, obs, mc, st, tvs, d, agg, _, _, _, _, _, _, hr⟩ := calcG1_inversion h
  rw [hr]
  exact mkResult_compliance_bounds _ _ _

theorem claim_compliance_range_witness :
    ∃ x, ex9Result.ind_1_1_cumplimiento = some x ∧ 0 ≤ x ∧ x ≤ 100 :=
  (claim_compliance_range ex9 ex9Result ex9_run).resolve_left (by simp [ex9Result])

/-- C7: when the configured course ceiling exceeds 25 while no observed
raw course grade exceeds 22, the scale is treated as a misconfiguration:
no normalization, divisor 1. -/
theorem claim_scale_protection :
    ∀ ug cfg obs, scanScale ug = .ok (cfg, obs) →
      cfg > 25 → obs ≤ 22 → scaleDecision cfg obs = (false, 1) := by
  intro ug cfg obs _ hc ho
  unfold scaleDecision
  rw [if_pos hc, if_neg (not_lt.mpr ho)]

theorem claim_scale_protection_witness :
    scanScale exScaleProt = .ok (100, 20) ∧ scaleDecision 100 20 = (false, 1) :=
  ⟨by with_unfolding_all rfl,
   claim_scale_protection exScaleProt 100 20 (by with_unfolding_all rfl)
     (by norm_num) (by norm_num)⟩

/-- C8: a student's finisher status is exactly the density test
`completed / final_denominator ≥ 0.80` (no grade in sight), and for a
positive denominator it is monotone in the completed count. -/
theorem claim_finisher_monotone :
    (∀ c d, isFinisher c d = true ↔ (c : ℚ) / d ≥ DENSITY_COMPLETE) ∧
    ∀ c c1 d, 0 < d → c ≤ c1 → isFinisher c d = true → isFinisher c1 d = true := by
  constructor
  · intro c d; simp [isFinisher]
  · intro c c1 d hd hc h
    simp only [isFinisher, decide_eq_true_eq, ge_iff_le] at h ⊢
    calc DENSITY_COMPLETE ≤ (c : ℚ) / d := h
      _ ≤ (c1 : ℚ) / d := by
          apply div_le_div_of_nonneg_right ?_ hd.le
          exact_mod_cast hc

theorem claim_finisher_monotone_witness : isFinisher 5 5 = true := by
  have h4 : isFinisher 4 5 = true := by with_unfolding_all rfl
  exact claim_finisher_monotone.2 4 5 5 (by norm_num) (by norm_num) h4

/-- C2: refuted on the code — a non-numeric `grademax` reaches unguarded
`float(...)` coercions (group1_results.py line 44 in the scale scan;
group3_behavior.py line 61 in the whitelist replication), so both compute
functions raise `ValueError` instead of skipping the malformed item. -/
theorem claim_no_exception_refuted :
    calculate_group1_metrics exBadGmax = .error "ValueError" ∧
    calculate_group3_metrics_from_grades exBadGmax3 = .error "ValueError" :=
  ⟨by with_unfolding_all rfl, by with_unfolding_all rfl⟩

/-- C9: the end-to-end example — divisor 100 with normalization on,
normalized grades 19/17/8/18.4/0/15.6, the zero-grade zero-completion
student is not a participant, five students processed, approval 80. -/
theorem claim_end_to_end :
    (scanScale ex9).map (fun co => scaleDecision co.1 co.2) = .ok (true, 100) ∧
    [95, 85, 40, 92, 0, 78].map (fun raw => normGrade true true 100 raw)
      = [19, 17, 8, 18.4, 0, 15.6] ∧
    isParticipant true 0 0 = false ∧
    calculate_group1_metrics ex9 = .ok (some ex9Result) ∧
    ex9Result.n_estudiantes_procesados = 5 ∧
    ex9Result.ind_1_2_aprobacion = 80 :=
  ⟨by with_unfolding_all rfl, by with_unfolding_all rfl,
   by with_unfolding_all rfl, ex9_run, rfl, rfl⟩

-- ---------------------------------------------------------------------
-- Desert-mode invariants of the STEP 2 loop
-- ---------------------------------------------------------------------

/-- In desert mode one classification step never increments the finisher
count. -/
theorem classify_desert_finisher_eq (wl : List ℕ) (d : ℚ) (sn : Bool) (dv : ℚ)
    (a : Agg) (s : Student) (a2 : Agg)
    (h : classifyStudent true wl d sn dv a s = .ok a2) : a2.finisher = a.finisher := by
  cases s with
  | nullRow =>
    simp only [classifyStudent, Except.ok.injEq] at h
    rw [← h]
  | mk items =>
    cases items with
    | nil =>
      simp only [classifyStudent, Except.ok.injEq] at h
      rw [← h]
    | cons it its =>
      simp only [classifyStudent] at h
      unfold classifyItems at h
      cases hfe : finalExtract (it :: its) with
      | error e => rw [hfe] at h; exact absurd h (by simp [Except.bind])
      | ok fr =>
        rw [hfe] at h
        simp only [Except.bind, eq_self_iff_true, if_true] at h
        split at h <;> simp only [Except.ok.injEq] at h <;> rw [← h] <;> simp

/-- In desert mode the whole STEP 2 fold keeps the finisher count of its
initial accumulator. -/
theorem foldl_classify_desert_finisher (wl : List ℕ) (d : ℚ) (sn : Bool) (dv : ℚ) :
    ∀ (l : List Student) (a agg : Agg),
      l.foldlM (classifyStudent true wl d sn dv) a = .ok agg →
      agg.finisher = a.finisher := by
  intro l
  induction l with
  | nil =>
    intro a agg h
    simp only [List.foldlM, pure, Except.pure, Except.ok.injEq] at h
    rw [← h]
  | cons s rest ih =>
    intro a agg h
    rw [List.foldlM_cons] at h
    cases hstep : classifyStudent true wl d sn dv a s with
    | error e =>
      rw [hstep] at h
      exact absurd h (by simp [Except.bind, Bind.bind])
    | ok a2 =>
      rw [hstep] at h
      simp only [Bind.bind, Except.bind] at h
      rw [ih a2 agg h, classify_desert_finisher_eq wl d sn dv a s a2 hstep]

/-- C10: in a digital desert (empty whitelist) that still produces a
result, the completion components are `ind_1_5_num = 0` and
`ind_1_5_den = n_estudiantes_procesados > 0`, the course-level completion
field is `None`, and recomputing completion from the components yields 0%. -/
theorem claim_desert_completion_components :
    ∀ ug r, group1Whitelist ug = .ok [] →
      calculate_group1_metrics ug = .ok (some r) →
      r.ind_1_5_num = 0 ∧
      r.ind_1_5_den = r.n_estudiantes_procesados ∧
      0 < r.ind_1_5_den ∧
      r.ind_1_5_finalizacion = none ∧
      (r.ind_1_5_num : ℚ) / (r.ind_1_5_den : ℚ) * 100 = 0 := by
  intro ug r hwl h
  obtain ⟨cfg, obs, mc, st, tvs, d, agg, hs, hc, hmc, hd, ha, hgate, hr⟩ := calcG1_inversion h
  unfold group1Whitelist at hwl
  rw [hc] at hwl
  simp only [Except.bind, Except.ok.injEq] at hwl
  rw [hwl] at ha hr
  have hfin : agg.finisher = 0 := by
    have hz := foldl_classify_desert_finisher
      ([] : List ℕ) d (scaleDecision cfg obs).1 (scaleDecision cfg obs).2 ug Agg.init agg ha
    simpa [Agg.init] using hz
  subst hr
  refine ⟨?_, ?_, ?_, ?_, ?_⟩
  · simp [mkResult, hfin]
  · simp [mkResult]
  · simp only [mkResult]
    unfold MIN_STUDENTS_REQUIRED at hgate
    omega
  · simp [mkResult]
  · simp [mkResult, hfin]

theorem claim_desert_completion_components_witness :
    exDesertResult.ind_1_5_num = 0 ∧
    exDesertResult.ind_1_5_den = exDesertResult.n_estudiantes_procesados ∧
    0 < exDesertResult.ind_1_5_den ∧
    exDesertResult.ind_1_5_finalizacion = none ∧
    (exDesertResult.ind_1_5_num : ℚ) / (exDesertResult.ind_1_5_den : ℚ) * 100 = 0 :=
  claim_desert_completion_components exDesert exDesertResult
    exDesert_whitelist exDesert_run

-- ---------------------------------------------------------------------
-- Digital-desert whitelist emptiness (for C4)
-- ---------------------------------------------------------------------

/-- Whatever metadata is built from an item copies its type and parses its
(defaulted) `grademax`. -/
theorem buildMetaFromItem_spec {it : GradeItem} {m : ColMeta}
    (hm : buildMetaFromItem it = some m) :
    m.type = it.itemtype ∧ pyFloat (it.grademax.getD (JVal.num 0)) = .ok m.gmax := by
  unfold buildMetaFromItem at hm
  cases hg : pyFloat (it.grademax.getD (JVal.num 0)) with
  | error e => rw [hg] at hm; exact absurd hm (by simp)
  | ok g =>
    rw [hg] at hm
    cases hw : it.weightraw with
    | null =>
      rw [hw] at hm
      simp only [Option.some.injEq] at hm
      rw [← hm]
      exact ⟨rfl, rfl⟩
    | num q =>
      rw [hw] at hm
      simp only at hm
      cases hq : pyFloat (JVal.num q) with
      | error e => rw [hq] at hm; exact absurd hm (by simp)
      | ok w =>
        rw [hq] at hm
        simp only [Option.some.injEq] at hm
        rw [← hm]
        exact ⟨rfl, rfl⟩
    | str s1 =>
      rw [hw] at hm
      simp only at hm
      cases hq : pyFloat (JVal.str s1) with
      | error e => rw [hq] at hm; exact absurd hm (by simp)
      | ok w =>
        rw [hq] at hm
        simp only [Option.some.injEq] at hm
        rw [← hm]
        exact ⟨rfl, rfl⟩

theorem colStep_desertLike {it : GradeItem} {e : Option ColMeta × ℕ}
    (hit : desertLikeItem it) (he : desertLikeEntry e) :
    desertLikeEntry (colStep it e) := by
  intro m hm
  unfold colStep at hm
  cases h1 : e.1 with
  | some m0 =>
    rw [h1] at hm
    simp only [Option.some.injEq] at hm
    exact hm ▸ he m0 h1
  | none =>
    rw [h1] at hm
    cases hb : buildMetaFromItem it with
    | none => rw [hb] at hm; exact absurd hm (by simp)
    | some m1 =>
      rw [hb] at hm
      simp only [Option.some.injEq] at hm
      obtain ⟨htype, hgm⟩ := buildMetaFromItem_spec hb
      rw [← hm]
      rcases hit with hagg | habs | hzero
      · left; rw [htype]; exact hagg
      · right
        rw [habs] at hgm
        simp only [Option.getD, pyFloat, Except.ok.injEq] at hgm
        exact hgm.symm
      · right
        rw [hzero] at hgm
        simp only [Option.getD, pyFloat, Except.ok.injEq] at hgm
        exact hgm.symm

theorem colsPass_desertLike :
    ∀ (items : List GradeItem) (st : List (Option ColMeta × ℕ)),
      (∀ it ∈ items, desertLikeItem it) →
      (∀ e ∈ st, desertLikeEntry e) →
      ∀ e ∈ colsPass items st, desertLikeEntry e := by
  intro items
  induction items with
  | nil => intro st _ hst; simpa [colsPass] using hst
  | cons it its ih =>
    intro st hits hst
    cases st with
    | nil => simp [colsPass]
    | cons e0 st0 =>
      simp only [colsPass, List.mem_cons]
      intro e he
      rcases he with rfl | he0
      · exact colStep_desertLike (hits it (by simp)) (hst e0 (by simp))
      · exact ih st0 (fun x hx => hits x (by simp [hx]))
          (fun x hx => hst x (by simp [hx])) e he0

theorem foldl_colsFold_desertLike :
    ∀ (ug : List Student),
      (∀ s ∈ ug, ∀ it ∈ s.itemsOrNil, desertLikeItem it) →
      ∀ (acc : List (Option ColMeta × ℕ) × ℕ),
      (∀ e ∈ acc.1, desertLikeEntry e) →
      ∀ e ∈ (ug.foldl colsFold acc).1, desertLikeEntry e := by
  intro ug
  induction ug with
  | nil => intro _ acc hacc; simpa using hacc
  | cons s rest ih =>
    intro H acc hacc
    rw [List.foldl_cons]
    apply ih (fun x hx => H x (by simp [hx]))
    cases s with
    | nullRow => simpa [colsFold] using hacc
    | mk items =>
      cases items with
      | nil => simpa [colsFold] using hacc
      | cons it its =>
        simp only [colsFold]
        exact colsPass_desertLike (it :: its) acc.1
          (H (Student.mk (it :: its)) (by simp)) hacc

theorem whitelistFrom_desert (hew : Bool) (tvs : ℕ) :
    ∀ (st : List (Option ColMeta × ℕ)) (idx : ℕ),
      (∀ e ∈ st, desertLikeEntry e) →
      whitelistFrom hew tvs idx st = [] := by
  intro st
  induction st with
  | nil => intro idx _; simp [whitelistFrom]
  | cons e st0 ih =>
    intro idx hst
    simp only [whitelistFrom]
    rw [ih (idx + 1) (fun x hx => hst x (by simp [hx]))]
    cases h1 : e.1 with
    | none => simp
    | some m =>
      rcases hst e (by simp) m h1 with hagg | hg
      · simp [keepColumn, hagg]
      · have hlt : ¬ ((1 : ℚ) / 100 < 0) := by norm_num
        simp [keepColumn, hg, hlt]

/-- Under the digital-desert hypothesis, the engine's whitelist is empty
for every column count. -/
theorem whitelistIndices_desert {ug : List Student}
    (H : ∀ s ∈ ug, ∀ it ∈ s.itemsOrNil, desertLikeItem it) (mc : ℕ) :
    whitelistIndices (buildColumns ug mc).1 (buildColumns ug mc).2 = [] := by
  unfold whitelistIndices
  apply whitelistFrom_desert
  apply foldl_colsFold_desertLike ug H
  intro e he
  rw [List.eq_of_mem_replicate he]
  intro m hm
  exact absurd hm (by simp)

-- ---------------------------------------------------------------------
-- Desert-mode approval is computed from final grades alone (for C4)
-- ---------------------------------------------------------------------

/-- The desert-mode STEP 2 fold agrees with the grade-only scan
`desertStep` on the passing and processed counters (and fails on exactly
the same inputs along the way). -/
theorem classify_desert_proj (wl : List ℕ) (d : ℚ) (sn : Bool) (dv : ℚ) :
    ∀ (l : List Student) (a : Agg) (acc : ℕ × ℕ),
      a.passing = acc.1 → a.processed = acc.2 →
      ∀ agg, l.foldlM (classifyStudent true wl d sn dv) a = .ok agg →
      ∃ pr, l.foldlM (desertStep sn dv) acc = .ok pr ∧
        agg.passing = pr.1 ∧ agg.processed = pr.2 := by
  intro l
  induction l with
  | nil =>
    intro a acc h1 h2 agg h
    simp only [List.foldlM, pure, Except.pure, Except.ok.injEq] at h
    subst h
    exact ⟨acc, by simp [List.foldlM, pure, Except.pure], h1, h2⟩
  | cons s rest ih =>
    intro a acc h1 h2 agg h
    rw [List.foldlM_cons] at h
    rw [List.foldlM_cons]
    cases s with
    | nullRow =>
      simp only [classifyStudent, Bind.bind, Except.bind] at h
      obtain ⟨pr, hpr, e1, e2⟩ := ih a acc h1 h2 agg h
      exact ⟨pr, by simpa [desertStep, Bind.bind, Except.bind] using hpr, e1, e2⟩
    | mk items =>
      cases items with
      | nil =>
        simp only [classifyStudent, Bind.bind, Except.bind] at h
        obtain ⟨pr, hpr, e1, e2⟩ := ih a acc h1 h2 agg h
        exact ⟨pr, by simpa [desertStep, Bind.bind, Except.bind] using hpr, e1, e2⟩
      | cons it its =>
        simp only [classifyStudent] at h
        unfold classifyItems at h
        simp only [desertStep]
        cases hfe : finalExtract (it :: its) with
        | error e =>
          rw [hfe] at h
          exact absurd h (by simp [Bind.bind, Except.bind])
        | ok fr =>
          rw [hfe] at h
          simp only [Bind.bind, Except.bind, eq_self_iff_true, if_true] at h ⊢
          by_cases hp : isParticipant fr.1 fr.2 0 = true
          · rw [if_pos hp] at h ⊢
            obtain ⟨pr, hpr, e1, e2⟩ := ih _
              (if normGrade fr.1 sn dv fr.2 ≥ PASSING_GRADE then acc.1 + 1 else acc.1,
                acc.2 + 1)
              (by simp [h1]) (by simp [h2]) agg h
            exact ⟨pr, hpr, e1, e2⟩
          · rw [if_neg hp] at h ⊢
            obtain ⟨pr, hpr, e1, e2⟩ := ih a acc h1 h2 agg h
            exact ⟨pr, hpr, e1, e2⟩

/-- C4: on a gradebook whose every non-aggregate column has `grademax`
absent or 0, the whitelist is empty (digital desert); any produced result
has `None` compliance and completion, while its approval indicator and
components are computed by the grade-only scan `desertApproval` — from the
students' final course grades alone. -/
theorem claim_digital_desert :
    ∀ ug, (∀ s ∈ ug, ∀ it ∈ s.itemsOrNil, desertLikeItem it) →
      (∀ wl, group1Whitelist ug = .ok wl → wl = []) ∧
      (∀ cfg obs r, scanScale ug = .ok (cfg, obs) →
        calculate_group1_metrics ug = .ok (some r) →
        r.ind_1_1_cumplimiento = none ∧
        r.ind_1_5_finalizacion = none ∧
        ∃ p n,
          desertApproval (scaleDecision cfg obs).1 (scaleDecision cfg obs).2 ug
            = .ok (p, n) ∧
          r.n_estudiantes_procesados = n ∧
          r.ind_1_2_num = p ∧ r.ind_1_2_den = n ∧
          r.ind_1_2_aprobacion = pyRound2 ((p : ℚ) / (n : ℚ) * 100)) := by
  intro ug H
  constructor
  · intro wl hwl
    unfold group1Whitelist columnsStep at hwl
    cases hmc : maxColumns ug with
    | error e => rw [hmc] at hwl; exact absurd hwl (by simp [Except.bind])
    | ok mc =>
      rw [hmc] at hwl
      simp only [Except.bind, Except.ok.injEq] at hwl
      rw [← hwl]
      exact whitelistIndices_desert H mc
  · intro cfg obs r hscan h
    obtain ⟨cfg2, obs2, mc, st, tvs, d, agg, hs, hc, hmc0, hd, ha, hgate, hr⟩ :=
      calcG1_inversion h
    rw [hscan] at hs
    simp only [Except.ok.injEq, Prod.mk.injEq] at hs
    obtain ⟨hcfg, hobs⟩ := hs
    subst hcfg
    subst hobs
    unfold columnsStep at hc
    cases hmc : maxColumns ug with
    | error e => rw [hmc] at hc; exact absurd hc (by simp [Except.bind])
    | ok mc0 =>
      rw [hmc] at hc
      simp only [Except.bind, Except.ok.injEq, Prod.mk.injEq] at hc
      obtain ⟨hmceq, hbc⟩ := hc
      have hempty : whitelistIndices st tvs = [] := by
        have h1 : st = (buildColumns ug mc0).1 := by rw [hbc]
        have h2 : tvs = (buildColumns ug mc0).2 := by rw [hbc]
        rw [h1, h2]
        exact whitelistIndices_desert H mc0
      rw [hempty] at ha hr
      obtain ⟨pr, hpr, e1, e2⟩ :=
        classify_desert_proj [] d (scaleDecision cfg obs).1 (scaleDecision cfg obs).2
          ug Agg.init (0, 0) rfl rfl agg ha
      subst hr
      refine ⟨by simp [mkResult], by simp [mkResult], pr.1, pr.2, ?_, ?_, ?_, ?_, ?_⟩
      · unfold desertApproval
        exact hpr
      · simp [mkResult, e2]
      · simp [mkResult, e1]
      · simp [mkResult, e2]
      · simp [mkResult, e1, e2]

theorem claim_digital_desert_witness :
    exDesertResult.ind_1_1_cumplimiento = none ∧
    exDesertResult.ind_1_5_finalizacion = none ∧
    ∃ p n, desertApproval false 1 exDesert = .ok (p, n) ∧
      exDesertResult.n_estudiantes_procesados = n ∧
      exDesertResult.ind_1_2_num = p ∧ exDesertResult.ind_1_2_den = n ∧
      exDesertResult.ind_1_2_aprobacion = pyRound2 ((p : ℚ) / (n : ℚ) * 100) := by
  have hsd : scaleDecision 20 19 = (false, 1) := by with_unfolding_all rfl
  have h := (claim_digital_desert exDesert (by with_unfolding_all decide)).2
    20 19 exDesertResult (by with_unfolding_all rfl) exDesert_run
  rw [hsd] at h
  exact h

-- ---------------------------------------------------------------------
-- The feedback loop counts exactly the graded/feedback items in the
-- whitelisted columns (for C1)
-- ---------------------------------------------------------------------

theorem feedbackCount_spec (items : List GradeItem) :
    ∀ (wl : List ℕ) (acc : ℕ × ℕ),
      feedbackCount items acc wl =
        (acc.1 + wl.countP (gradedAt items), acc.2 + wl.countP (fbAt items)) := by
  intro wl
  induction wl with
  | nil => intro acc; simp [feedbackCount]
  | cons idx wl0 ih =>
    intro acc
    have hstep : feedbackCount items acc (idx :: wl0) =
        feedbackCount items
          (match items[idx]? with
           | none => acc
           | some it =>
             if it.graderaw.isNull then acc
             else (acc.1 + 1, if it.feedback ≠ "" then acc.2 + 1 else acc.2)) wl0 := rfl
    rw [hstep, ih]
    cases hg : items[idx]? with
    | none => simp [List.countP_cons, gradedAt, fbAt, hg]
    | some it =>
      by_cases hn : it.graderaw.isNull
      · simp [List.countP_cons, gradedAt, fbAt, hg, hn]
      · by_cases hf : it.feedback = ""
        · simp only [hg, hn, if_false, Bool.false_eq_true, ite_false, hf, ne_eq,
            not_true_eq_false, List.countP_cons, gradedAt, fbAt]
          simp [hg, hn, hf, Prod.ext_iff]
          omega
        · simp only [hg, hn, Bool.false_eq_true, ite_false, hf, ne_eq,
            not_false_eq_true, ite_true, List.countP_cons]
          simp [gradedAt, fbAt, hg, hn, hf, Prod.ext_iff]
          constructor <;> omega

theorem feedbackTally_spec (wl : List ℕ) :
    ∀ (ug : List Student) (acc : ℕ × ℕ),
      ug.foldl (feedbackFold wl) acc =
        (acc.1 + gradedItemsInCols wl ug, acc.2 + fbItemsInCols wl ug) := by
  intro ug
  induction ug with
  | nil => intro acc; simp [gradedItemsInCols, fbItemsInCols]
  | cons s rest ih =>
    intro acc
    rw [List.foldl_cons, ih]
    have hg0 : ∀ idx, gradedAt [] idx = false := by intro idx; simp [gradedAt]
    have hf0 : ∀ idx, fbAt [] idx = false := by intro idx; simp [fbAt]
    have hsum_g : gradedItemsInCols wl (s :: rest) =
        wl.countP (gradedAt s.itemsOrNil) + gradedItemsInCols wl rest := by
      simp [gradedItemsInCols]
    have hsum_f : fbItemsInCols wl (s :: rest) =
        wl.countP (fbAt s.itemsOrNil) + fbItemsInCols wl rest := by
      simp [fbItemsInCols]
    cases s with
    | nullRow =>
      rw [hsum_g, hsum_f]
      have : wl.countP (gradedAt Student.nullRow.itemsOrNil) = 0 :=
        List.countP_eq_zero.mpr (fun idx _ => by simp [Student.itemsOrNil, gradedAt])
      have hzf : wl.countP (fbAt Student.nullRow.itemsOrNil) = 0 :=
        List.countP_eq_zero.mpr (fun idx _ => by simp [Student.itemsOrNil, fbAt])
      simp [feedbackFold, this, hzf]
    | mk items =>
      cases items with
      | nil =>
        rw [hsum_g, hsum_f]
        have hzg : wl.countP (gradedAt (Student.mk []).itemsOrNil) = 0 :=
          List.countP_eq_zero.mpr (fun idx _ => by simp [Student.itemsOrNil, gradedAt])
        have hzf : wl.countP (fbAt (Student.mk []).itemsOrNil) = 0 :=
          List.countP_eq_zero.mpr (fun idx _ => by simp [Student.itemsOrNil, fbAt])
        simp [feedbackFold, hzg, hzf]
      | cons it its =>
        rw [hsum_g, hsum_f]
        simp only [feedbackFold, feedbackCount_spec, Student.itemsOrNil, Prod.ext_iff]
        constructor <;> omega

/-- Inversion of a successful group-3 run: the whitelist replication
succeeded, and every output field is the corresponding tally expression. -/
theorem calcG3_inversion {ug : List Student} {r : G3Result}
    (h : calculate_group3_metrics_from_grades ug = .ok (some r)) :
    ∃ wl, g3Whitelist ug = .ok wl ∧
      r = ⟨(if 0 < (excellenceTally ug).1 then
              pyRound2 (((excellenceTally ug).2 : ℚ) / ((excellenceTally ug).1 : ℚ) * 100)
            else 0),
           (if 0 < (g3FeedbackTally ug wl).1 then
              pyRound2 (((g3FeedbackTally ug wl).2 : ℚ) / ((g3FeedbackTally ug wl).1 : ℚ) * 100)
            else 0),
           (excellenceTally ug).2, (excellenceTally ug).1,
           (g3FeedbackTally ug wl).2, (g3FeedbackTally ug wl).1⟩ := by
  unfold calculate_group3_metrics_from_grades at h
  split at h
  · exact absurd h (by simp)
  · cases hwl : g3Whitelist ug with
    | error e => rw [hwl] at h; exact absurd h (by simp [Except.bind])
    | ok wl =>
      rw [hwl] at h
      simp only [Except.bind, Except.ok.injEq, Option.some.injEq] at h
      exact ⟨wl, rfl, h.symm⟩

theorem exFeedback_run :
    calculate_group3_metrics_from_grades exFeedback = .ok (some exFeedbackResult) := by
  with_unfolding_all rfl

/-- C1 counterexample: on `exFeedback` the engine reports a feedback rate
of 0 — the only whitelisted column carries no feedback — while the spec's
formula over all graded non-aggregate items of the raw gradebook gives 50. -/
theorem claim_feedback_raw_counterexample :
    (calculate_group3_metrics_from_grades exFeedback).map
      (Option.map G3Result.ind_3_2_feedback) = .ok (some 0) ∧
    specFeedbackRatio exFeedback = 50 ∧
    (0 : ℚ) ≠ pyRound2 50 :=
  ⟨by with_unfolding_all rfl, by with_unfolding_all rfl, by with_unfolding_all decide⟩

/-- C1 (amended): the engine's feedback indicator equals the share of
graded items carrying non-empty feedback among the graded items lying in
the whitelisted columns only (rounded to 2 decimals; 0 when no such item
is graded), with `ind_3_2_num`/`ind_3_2_den` the corresponding counts. -/
theorem claim_feedback_whitelisted :
    ∀ ug wl r, g3Whitelist ug = .ok wl →
      calculate_group3_metrics_from_grades ug = .ok (some r) →
      r.ind_3_2_num = fbItemsInCols wl ug ∧
      r.ind_3_2_den = gradedItemsInCols wl ug ∧
      r.ind_3_2_feedback =
        (if 0 < gradedItemsInCols wl ug then
          pyRound2 ((fbItemsInCols wl ug : ℚ) / (gradedItemsInCols wl ug : ℚ) * 100)
        else 0) := by
  intro ug wl r hwl h
  obtain ⟨wl2, hwl2, hr⟩ := calcG3_inversion h
  rw [hwl] at hwl2
  simp only [Except.ok.injEq] at hwl2
  subst hwl2
  have ht : g3FeedbackTally ug wl = (gradedItemsInCols wl ug, fbItemsInCols wl ug) := by
    unfold g3FeedbackTally
    rw [feedbackTally_spec]
    simp
  rw [hr]
  simp [ht]

theorem claim_feedback_whitelisted_witness :
    ∃ r, calculate_group3_metrics_from_grades exFeedback = .ok (some r) ∧
      r.ind_3_2_num = fbItemsInCols [0] exFeedback ∧
      r.ind_3_2_den = gradedItemsInCols [0] exFeedback := by
  have hwl : g3Whitelist exFeedback = .ok [0] := by with_unfolding_all rfl
  have h := claim_feedback_whitelisted exFeedback [0] exFeedbackResult hwl exFeedback_run
  exact ⟨exFeedbackResult, exFeedback_run, h.1, h.2.1⟩
